import Mathlib

/-!
Verification development for the NuMarkdown OCR desktop application
(`src/gui.py`).  The pure computations of the worker pipeline (image
downscaling arithmetic, result sanitization) are embedded directly; the
stateful parts (the worker's signal emissions in `OCRWorker.run`, the
supervisor logic of `MainWindow.start_ocr`, `MainWindow.on_model_changed`,
`MainWindow.display_result`, `MainWindow.log`) are embedded as explicit
state-passing functions over an environment that records what the external
libraries (PIL, transformers, torch, Qt) return at each call site.
Machine floats of the source are modelled by exact rational arithmetic;
the counterexamples below only use inputs on which the two agree.
-/

namespace NuMarkdownOCR

/-- A signal emitted by the worker: `log` (the `log` Qt signal, gui.py
line 27) or `finished` (the terminal result signal, line 26). -/
inductive Emission where
  | log (msg : String)
  | finished (payload : String)
deriving DecidableEq, Repr

/-- Handle for the processor returned by `AutoProcessor.from_pretrained`
(gui.py lines 457-460), tagged with the path it was loaded from. -/
structure ProcessorHandle where
  loadedFrom : String
deriving DecidableEq, Repr

/-- Handle for the model returned by
`Qwen2_5_VLForConditionalGeneration.from_pretrained` (gui.py lines
466-472), tagged with the path it was loaded from. -/
structure ModelHandle where
  loadedFrom : String
deriving DecidableEq, Repr

/-- Outcome of one external call inside the `try` block of
`OCRWorker.run`: a normal return, a `torch.cuda.OutOfMemoryError`, or any
other exception (caught by `except Exception`, gui.py line 140), carrying
the text that the handler interpolates. -/
inductive Ext (α : Type) where
  | ok (a : α)
  | oom
  | raise (msg : String)

/-- An input raster image as seen by the worker: `img.size` is
`(width, height)` in PIL. -/
structure RawImage where
  width : Nat
  height : Nat
deriving DecidableEq, Repr

/-- The resampling filter used at gui.py line 53. -/
inductive Resampling where
  | lanczos
deriving DecidableEq, Repr

/-- The image after the preparation step (gui.py lines 46-54): its
dimensions, the unconditional RGB conversion of line 46, and the filter
used if a resize happened. -/
structure PreparedImage where
  width : Nat
  height : Nat
  rgb : Bool
  resampledWith : Option Resampling
deriving DecidableEq, Repr

/-- The new dimensions computed at gui.py lines 51-52:
`ratio = 1536 / max(img.size)` and `new_size = tuple(int(dim * ratio)
for dim in img.size)`.  Python `int` truncates towards zero, so on the
nonnegative exact value this is the floor, i.e. `dim * 1536 / m` in
natural-number division. -/
def resizeDims (sz : Nat × Nat) : Nat × Nat :=
  (sz.1 * 1536 / max sz.1 sz.2, sz.2 * 1536 / max sz.1 sz.2)

/-- The image-preparation step, gui.py lines 46-54: convert to RGB, and
downscale with LANCZOS only when `max(img.size) > 1536`. -/
def prepare (img : RawImage) : PreparedImage :=
  if max img.width img.height > 1536 then
    { width := (resizeDims (img.width, img.height)).1,
      height := (resizeDims (img.width, img.height)).2,
      rgb := true,
      resampledWith := some Resampling.lanczos }
  else
    { width := img.width, height := img.height, rgb := true,
      resampledWith := none }

/-- The image-preparation step as claim C5 words it: new dimensions are
`round(dim * ratio)` with `ratio = 1536 / max(width, height)`, computed
independently per axis (claim-side definition, for comparison with
`prepare`). -/
def prepareSpecRound (img : RawImage) : PreparedImage :=
  if max img.width img.height > 1536 then
    { width := (round ((img.width : ℚ) * (1536 / ((max img.width img.height : ℕ) : ℚ)))).toNat,
      height := (round ((img.height : ℚ) * (1536 / ((max img.width img.height : ℕ) : ℚ)))).toNat,
      rgb := true,
      resampledWith := some Resampling.lanczos }
  else
    { width := img.width, height := img.height, rgb := true,
      resampledWith := none }

/-- The amended image-preparation contract: identical to
`prepareSpecRound` except that each new dimension is the floor
`⌊dim * ratio⌋` rather than the rounding (claim-side definition). -/
def prepareSpecFloor (img : RawImage) : PreparedImage :=
  if max img.width img.height > 1536 then
    { width := ⌊(img.width : ℚ) * (1536 / ((max img.width img.height : ℕ) : ℚ))⌋₊,
      height := ⌊(img.height : ℚ) * (1536 / ((max img.width img.height : ℕ) : ℚ))⌋₊,
      rgb := true,
      resampledWith := some Resampling.lanczos }
  else
    { width := img.width, height := img.height, rgb := true,
      resampledWith := none }

/-- The whitespace set of Python's `str.strip()` for the ASCII range:
space, tab, newline, carriage return, vertical tab, form feed. -/
def pySpace (c : Char) : Bool :=
  c == ' ' || c == '\t' || c == '\n' || c == '\r' || c == '\x0b' || c == '\x0c'

/-- Python `s.lstrip()` on the character sequence of `s`. -/
def pyLStrip (s : String) : String :=
  ⟨s.data.dropWhile pySpace⟩

/-- Python `s.rstrip()` on the character sequence of `s`. -/
def pyRStrip (s : String) : String :=
  ⟨(s.data.reverse.dropWhile pySpace).reverse⟩

/-- Python `s.strip()` on the character sequence of `s`. -/
def pyStrip (s : String) : String :=
  pyRStrip (pyLStrip s)

/-- Python `s.startswith(p)`. -/
def pyStartsWith (s p : String) : Bool :=
  p.data.isPrefixOf s.data

/-- Python `s.endswith(p)`. -/
def pyEndsWith (s p : String) : Bool :=
  p.data.isSuffixOf s.data

/-- Python `len(s)`: the number of characters (code points) of `s`. -/
def pyLen (s : String) : Nat :=
  s.data.length

/-- Python `s[n:]`. -/
def pyDrop (s : String) (n : Nat) : String :=
  ⟨s.data.drop n⟩

/-- Python `s[:-n]` for `0 < n ≤ len(s)`: drop the last `n` characters. -/
def pyDropRight (s : String) (n : Nat) : String :=
  ⟨s.data.take (s.data.length - n)⟩

/-- The fixed sentinel substituted for a too-short result, gui.py
line 131. -/
def sentinel : String :=
  "Модель не смогла извлечь текст из изображения. Попробуйте другое изображение или проверьте качество."

/-- The leading fence marker tested at gui.py line 124. -/
def fenceOpen : String := "```markdown"

/-- The trailing fence marker tested at gui.py line 126. -/
def fenceClose : String := "```"

/-- The fence-stripping step, gui.py lines 124-127:
`result[len("```markdown"):].lstrip()` if `result` starts with the
leading marker, then `result[:-len("```")].rstrip()` if the outcome ends
with the trailing marker. -/
def stripFences (result : String) : String :=
  let r1 := if pyStartsWith result fenceOpen then
              pyLStrip (pyDrop result (pyLen fenceOpen))
            else result
  if pyEndsWith r1 fenceClose then
    pyRStrip (pyDropRight r1 (pyLen fenceClose))
  else r1

/-- gui.py line 121: `decoded[0].strip()` when `decoded` is a non-empty
list, else the empty string. -/
def firstDecoded (decoded : List String) : String :=
  match decoded with
  | [] => ""
  | d :: _ => pyStrip d

/-- The result post-processing of gui.py lines 121-131: take the first
decoded batch element stripped of whitespace, strip the fence markers,
and substitute the sentinel when fewer than 5 characters remain. -/
def sanitize (decoded : List String) : String :=
  let result := stripFences (firstDecoded decoded)
  if pyLen result < 5 then sentinel else result

/-- The out-of-memory handler message, gui.py line 137. -/
def oomMessage : String := "ОШИБКА: Недостаточно видеопамяти!"

/-- The message logged by the generic exception handler, gui.py line 141:
`f"Ошибка: {e}\n{traceback.format_exc()}"`; the exception text and the
traceback are abstracted into the environment-provided string `m`. -/
def excText (m : String) : String := "Ошибка: " ++ m

/-- The diagnostic log line of gui.py line 41. -/
def missingModelLog : String := "ОШИБКА: Модель не передана в рабочий поток!"

/-- The terminal payload of gui.py line 42, emitted when the processor or
the model was not handed to the worker. -/
def missingModelResult : String := "Ошибка: внутренняя ошибка приложения."

/-- The resize log line of gui.py line 54, with the Python tuple
rendering of `new_size`. -/
def resizedMsg (sz : Nat × Nat) : String :=
  "Изображение уменьшено до (" ++ toString sz.1 ++ ", " ++ toString sz.2 ++ ")"

/-- The tensor-shape log line of gui.py line 86; the two shape strings
come from the environment. -/
def inputShapesMsg (shapes : String × String) : String :=
  "Input: " ++ shapes.1 ++ ", Pixels: " ++ shapes.2

/-- The generation-finished log line of gui.py line 107; the formatted
elapsed time comes from the environment. -/
def genDoneMsg (secs : String) : String :=
  "Генерация завершена за " ++ secs ++ " сек"

/-- What the external libraries do during one invocation of
`OCRWorker.run`: `openImage` is `Image.open(...).convert("RGB")` (line 46,
returning the image size); `prepareInputs` covers lines 68-86
(`apply_chat_template`, `process_vision_info`, the processor call and the
move to the device — no signal is emitted between them — returning the two
tensor-shape strings logged at line 86); `generate` is `model.generate`
(lines 92-104); `batchDecode` is `processor.batch_decode` (lines 115-119).
Each can instead raise `torch.cuda.OutOfMemoryError` or another
exception. -/
structure RunEnv where
  openImage : Ext (Nat × Nat)
  prepareInputs : Ext (String × String)
  generate : Ext Unit
  genSeconds : String
  batchDecode : Ext (List String)

/-- The worker object, gui.py lines 29-34: the request fields and the
processor/model injected by the supervisor at lines 415-416. -/
structure OCRWorker where
  image_path : String
  prompt_text : String
  processor : Option ProcessorHandle
  model : Option ModelHandle
deriving DecidableEq, Repr

/-- Continue with `k` on a normal return; otherwise produce the
emissions of the matching `except` handler of gui.py lines 136-143 (the
handlers wrap the whole `try` block, so their emissions are independent
of the failing call site). -/
def step {α : Type} : Ext α → (α → List Emission) → List Emission
  | Ext.ok a, k => k a
  | Ext.oom, _ => [Emission.log oomMessage, Emission.finished oomMessage]
  | Ext.raise m, _ => [Emission.log (excText m), Emission.finished ""]

/-- The log emitted at gui.py line 54, only when the image was
downscaled. -/
def resizeEmits (sz : Nat × Nat) : List Emission :=
  if max sz.1 sz.2 > 1536 then [Emission.log (resizedMsg (resizeDims sz))]
  else []

/-- `OCRWorker.run` (gui.py lines 36-143) as the ordered list of signals
it emits, given what the external calls do.  Lines 40-43: guard on the
injected processor/model.  Then the `try` block in source order, with each
fallible call routed through `step`, and the success tail of lines
133-134: `finished.emit(result)` followed by `log.emit("Готово!")`. -/
def OCRWorker.run (w : OCRWorker) (env : RunEnv) : List Emission :=
  if w.processor.isNone || w.model.isNone then
    [Emission.log missingModelLog, Emission.finished missingModelResult]
  else
    Emission.log "Открытие изображения..." ::
    step env.openImage fun sz =>
      resizeEmits sz ++
      Emission.log "Подготовка входных данных..." ::
      step env.prepareInputs fun shapes =>
        Emission.log (inputShapesMsg shapes) ::
        Emission.log "Начало генерации..." ::
        step env.generate fun _ =>
          Emission.log (genDoneMsg env.genSeconds) ::
          step env.batchDecode fun decoded =>
            [Emission.finished (sanitize decoded),
             Emission.log "Готово!"]

/-- Is this emission the terminal `finished` signal? -/
def Emission.isTerminal : Emission → Bool
  | Emission.finished _ => true
  | Emission.log _ => false

/-- Number of terminal `finished` signals in a trace. -/
def countTerminal (es : List Emission) : Nat :=
  es.countP Emission.isTerminal

/-- Claim C2's property as stated: the last signal of the trace is the
terminal `finished` signal. -/
def terminalIsLast (es : List Emission) : Bool :=
  match es.getLast? with
  | some (Emission.finished _) => true
  | _ => false

/-- Did this external call return normally? -/
def Ext.isOk {α : Type} : Ext α → Bool
  | Ext.ok _ => true
  | Ext.oom => false
  | Ext.raise _ => false

/-- The invocation takes the success path of `OCRWorker.run`: both
handles were injected and every external call returns normally; when
this is false the run takes the line 40 guard or one of the two `except`
handlers, i.e. an error path. -/
def runSuccess (w : OCRWorker) (env : RunEnv) : Bool :=
  w.processor.isSome && w.model.isSome && env.openImage.isOk &&
    env.prepareInputs.isOk && env.generate.isOk && env.batchDecode.isOk

/-- The trace fragment contains only log signals, no terminal signal. -/
def allLogs (es : List Emission) : Bool :=
  es.all fun e => !(Emission.isTerminal e)

/-- A processor handle loaded from the model directory "/models/A". -/
def procA : ProcessorHandle := ⟨"/models/A"⟩

/-- A model handle loaded from the model directory "/models/A". -/
def modelA : ModelHandle := ⟨"/models/A"⟩

/-- An environment in which every external call succeeds: a small image
(no resize) and a decoded batch with one ordinary text. -/
def okEnv : RunEnv :=
  { openImage := Ext.ok (800, 600),
    prepareInputs := Ext.ok ("torch.Size([1, 760])", "torch.Size([1024, 1176])"),
    generate := Ext.ok (),
    genSeconds := "12.3",
    batchDecode := Ext.ok ["Привет, мир!"] }

/-- A worker that was handed both the processor and the model. -/
def workerOk : OCRWorker :=
  { image_path := "/imgs/page.png", prompt_text := "Извлеки текст",
    processor := some procA, model := some modelA }

/-- A worker whose processor was never injected (gui.py line 40 guard
fires). -/
def workerNoModel : OCRWorker :=
  { image_path := "/imgs/page.png", prompt_text := "Извлеки текст",
    processor := none, model := none }

/-!  The supervisor (`MainWindow`) side: state, `on_model_changed`,
`start_ocr`, `display_result`, `log`.  -/

/-- The observable supervisor state: the widget/attribute state of
`MainWindow` that the specified operations read and write.  `popups` is
the sequence of `QMessageBox.warning`/`QMessageBox.critical` texts shown;
`logLines` models the UI log pane together with `info.log` (the `log`
method appends to both, gui.py lines 444-452); `textLogEntries` models
`text.log`; `threadRunning` models `self.thread is not None and
self.thread.isRunning()`. -/
structure MainWindowState where
  image_path : Option String
  current_model_path : Option String
  processor : Option ProcessorHandle
  model : Option ModelHandle
  threadRunning : Bool
  promptInput : String
  textOutput : String
  logLines : List String
  textLogEntries : List String
  popups : List String
deriving DecidableEq, Repr

/-- `MainWindow.log` (gui.py lines 444-452): append the timestamped
message to the UI log pane and to `info.log`. -/
def MainWindow.log (st : MainWindowState) (now msg : String) : MainWindowState :=
  { st with logLines := st.logLines ++ ["[" ++ now ++ "] " ++ msg] }

/-- Append a batch of log messages via `MainWindow.log`, in order. -/
def MainWindow.logAll (st : MainWindowState) (now : String) (msgs : List String) :
    MainWindowState :=
  match msgs with
  | [] => st
  | m :: ms => MainWindow.logAll (MainWindow.log st now m) now ms

/-- Show a `QMessageBox` warning or critical dialog. -/
def popup (st : MainWindowState) (msg : String) : MainWindowState :=
  { st with popups := st.popups ++ [msg] }

/-- POSIX `os.path.basename`: the characters after the last slash. -/
def basename (p : String) : String :=
  ⟨(p.data.reverse.takeWhile (fun c => c != '/')).reverse⟩

/-- `MainWindow.on_model_changed` (gui.py lines 355-360): if the combo
box row carries a model path, record it as the current model path and log
the selection; the loaded processor/model are not touched. -/
def MainWindow.on_model_changed (st : MainWindowState) (now : String)
    (itemData : Option String) : MainWindowState :=
  match itemData with
  | some p =>
      MainWindow.log { st with current_model_path := some p } now
        ("✅ Выбрана модель: " ++ basename p)
  | none => st

/-- The line of `text.log` written by `MainWindow.display_result`,
gui.py line 442: timestamp header, the payload, and a separator of 50
dashes. -/
def textLogEntry (now result : String) : String :=
  "[" ++ now ++ "] Распознан текст:\n" ++ result ++ "\n"
    ++ String.mk (List.replicate 50 '-') ++ "\n"

/-- `MainWindow.display_result` (gui.py lines 437-442): show the payload
in the result pane and unconditionally append it, timestamped and
followed by the separator line, to `text.log`. -/
def MainWindow.display_result (st : MainWindowState) (now result : String) :
    MainWindowState :=
  { st with
      textOutput := result,
      textLogEntries := st.textLogEntries ++ [textLogEntry now result] }

/-- Externally visible actions performed by `MainWindow.start_ocr`, in
program order: the `load_model` call (lines 388-393), clearing the result
pane (line 395), clearing the CUDA cache (lines 396-397), `thread.quit()`
and `thread.wait()` on a still-running previous thread (lines 400-402),
constructing the worker (lines 410-416) and `thread.start()`
(line 425). -/
inductive SupAction where
  | loadModelCall (path : String)
  | clearOutput
  | clearCudaCache
  | quitThread
  | waitThread
  | createWorker
  | startThread
deriving DecidableEq, Repr

/-- Does the action list contain a `load_model` call? -/
def callsLoad (acts : List SupAction) : Bool :=
  acts.any fun a =>
    match a with
    | SupAction.loadModelCall _ => true
    | _ => false

/-- The environment of one `start_ocr` invocation: the wall-clock
timestamp, CUDA availability, and what `MainWindow.load_model` would
return if called — `none` models the `(None, None)` failure return of
gui.py line 484, and `loadLogs` are the messages `load_model` itself logs
(success report or error details, gui.py lines 474-483). -/
structure StartEnv where
  now : String
  cudaAvailable : Bool
  loadResult : Option (ProcessorHandle × ModelHandle)
  loadLogs : List String
deriving DecidableEq, Repr

/-- Result of one `start_ocr` invocation: the new supervisor state, the
worker dispatched on the fresh thread (if any), and the trace of external
actions in program order. -/
structure StartResult where
  state : MainWindowState
  worker : Option OCRWorker
  actions : List SupAction
deriving DecidableEq, Repr

/-- Lines 395-425 of `start_ocr`, reached once the model is known to be
loaded: clear the result pane, clear the CUDA cache when available, stop
a still-running previous thread (`quit` then `wait`), then check the
stripped prompt text (line 404) — warning and no worker when empty —
and otherwise build the worker from the current image path, the stripped
prompt and the supervisor's processor/model, and start its thread. -/
def startOcrTail (st : MainWindowState) (env : StartEnv) (imgPath : String)
    (acts : List SupAction) : StartResult :=
  let st1 := { st with textOutput := "" }
  let acts1 := acts ++ [SupAction.clearOutput]
  let acts2 := if env.cudaAvailable then acts1 ++ [SupAction.clearCudaCache] else acts1
  let quiesced :=
    if st1.threadRunning then
      ({ st1 with threadRunning := false },
       acts2 ++ [SupAction.quitThread, SupAction.waitThread])
    else (st1, acts2)
  let st2 := quiesced.1
  let acts3 := quiesced.2
  let promptText := pyStrip st2.promptInput
  if promptText = "" then
    ⟨popup st2 "Пожалуйста, введите промт.", none, acts3⟩
  else
    ⟨{ st2 with threadRunning := true },
     some { image_path := imgPath, prompt_text := promptText,
            processor := st2.processor, model := st2.model },
     acts3 ++ [SupAction.createWorker, SupAction.startThread]⟩

/-- `MainWindow.start_ocr` (gui.py lines 378-425).  Lines 380-385: abort
with a warning when no image or no model path is selected.  Lines
388-393: lazily call `load_model` when the processor or the model is
absent; on failure show a critical dialog and abort.  Then the tail of
lines 395-425 (`startOcrTail`). -/
def MainWindow.start_ocr (st : MainWindowState) (env : StartEnv) : StartResult :=
  match st.image_path with
  | none => ⟨popup st "Пожалуйста, выберите изображение.", none, []⟩
  | some imgPath =>
    match st.current_model_path with
    | none => ⟨popup st "Модель не выбрана.", none, []⟩
    | some modelPath =>
      if st.processor.isNone || st.model.isNone then
        let st1 := MainWindow.logAll (MainWindow.log st env.now "🔄 Загрузка модели...")
                     env.now env.loadLogs
        match env.loadResult with
        | some pm =>
            startOcrTail { st1 with processor := some pm.1, model := some pm.2 }
              env imgPath [SupAction.loadModelCall modelPath]
        | none =>
            ⟨popup st1 "Не удалось загрузить модель.", none,
             [SupAction.loadModelCall modelPath]⟩
      else
        startOcrTail st env imgPath []

/-- Quiescence discipline of claim C9, checked over an action trace:
walking the trace with the liveness of the previous worker thread
(`live` starts as "a previous thread is still running"), `thread.wait()`
is the point after which the previous context has fully stopped, and
`thread.start()` may only happen when no previous context is live. -/
def quiesceOk : Bool → List SupAction → Bool
  | _, [] => true
  | _, SupAction.waitThread :: rest => quiesceOk false rest
  | live, SupAction.startThread :: rest => !live && quiesceOk true rest
  | live, _ :: rest => quiesceOk live rest

/-- A `start_ocr` environment in which `load_model` would fail; with an
already-loaded supervisor state it is never consulted. -/
def envNoLoad : StartEnv :=
  { now := "10:00:00", cudaAvailable := false, loadResult := none, loadLogs := [] }

/-- A supervisor state with an image and a model path selected, the model
already loaded, a previous worker thread still running, an old result on
display, and a whitespace-only prompt. -/
def stReady : MainWindowState :=
  { image_path := some "/imgs/page.png", current_model_path := some "/models/A",
    processor := some procA, model := some modelA, threadRunning := true,
    promptInput := "   ", textOutput := "старый результат",
    logLines := [], textLogEntries := [], popups := [] }

/-- `stReady` with no image selected. -/
def stNoImage : MainWindowState := { stReady with image_path := none }

/-- `stReady` with no model path selected. -/
def stNoModelPath : MainWindowState := { stReady with current_model_path := none }

/-- `stReady` with a real prompt and no previous thread running: a state
from which `start_ocr` dispatches a worker. -/
def stDispatch : MainWindowState :=
  { stReady with promptInput := "Извлеки текст", threadRunning := false }

/-! Helper lemmas about traces and the supervisor state. -/

/-- Prepending a log signal does not change the terminal-signal count. -/
theorem countTerminal_log_cons (m : String) (es : List Emission) :
    countTerminal (Emission.log m :: es) = countTerminal es := by
  simp [countTerminal, Emission.isTerminal]

/-- The optional resize log does not change the terminal-signal count. -/
theorem countTerminal_resize (sz : Nat × Nat) (es : List Emission) :
    countTerminal (resizeEmits sz ++ es) = countTerminal es := by
  unfold resizeEmits
  split <;> simp [countTerminal, Emission.isTerminal]

/-- The optional resize log fragment contains only log signals. -/
theorem allLogs_resize (sz : Nat × Nat) : allLogs (resizeEmits sz) = true := by
  unfold resizeEmits
  split <;> simp [allLogs, Emission.isTerminal]

/-- Membership form of `allLogs_resize`. -/
theorem resize_no_terminal (sz : Nat × Nat) :
    ∀ x ∈ resizeEmits sz, Emission.isTerminal x = false := by
  unfold resizeEmits
  split <;> simp [Emission.isTerminal]

/-- `logAll` only appends log lines; the thread-running flag is
untouched. -/
theorem logAll_threadRunning (now : String) (msgs : List String) (st : MainWindowState) :
    (MainWindow.logAll st now msgs).threadRunning = st.threadRunning := by
  induction msgs generalizing st with
  | nil => rfl
  | cons m ms ih => exact ih (MainWindow.log st now m)

/-- The tail of `start_ocr` obeys the quiescence discipline, whether or
not a `load_model` call preceded it. -/
theorem quiesce_tail (st : MainWindowState) (env : StartEnv) (ip mp : String) :
    quiesceOk st.threadRunning (startOcrTail st env ip []).actions = true ∧
    quiesceOk st.threadRunning
      (startOcrTail st env ip [SupAction.loadModelCall mp]).actions = true := by
  unfold startOcrTail
  cases hb : st.threadRunning <;>
    simp only [hb] <;> split_ifs <;> simp [quiesceOk]

/-- Any worker dispatched by `start_ocr` carries exactly the supervisor's
already-loaded processor and model, and `load_model` is not called. -/
theorem start_worker_uses_handles (st : MainWindowState) (env : StartEnv)
    (p : ProcessorHandle) (m : ModelHandle) (w : OCRWorker)
    (hp : st.processor = some p) (hm : st.model = some m)
    (hw : (MainWindow.start_ocr st env).worker = some w) :
    w.processor = some p ∧ w.model = some m ∧
    callsLoad (MainWindow.start_ocr st env).actions = false := by
  unfold MainWindow.start_ocr at hw ⊢
  cases himg : st.image_path with
  | none =>
    simp [himg] at hw
  | some ip =>
    cases hmp : st.current_model_path with
    | none =>
      simp [himg, hmp] at hw
    | some mp =>
      simp only [himg, hmp, hp, hm, Option.isNone_some, Bool.or_self,
        Bool.false_eq_true, if_false] at hw ⊢
      simp only [startOcrTail] at hw ⊢
      split_ifs at hw ⊢ <;> simp_all [callsLoad] <;> simp [← hw]

/-! The claims. -/

/-- Claim C1: every invocation of `OCRWorker.run` emits exactly one
terminal `finished` signal — on the success path and on every error path
(missing model/processor, image decode failure, out-of-memory, any other
exception caught by `except Exception`); never zero and never more than
one. -/
theorem c1_run_emits_exactly_one_terminal (w : OCRWorker) (env : RunEnv) :
    countTerminal (OCRWorker.run w env) = 1 := by
  unfold OCRWorker.run
  split
  · rfl
  · rw [countTerminal_log_cons]
    cases env.openImage with
    | oom => rfl
    | raise m => rfl
    | ok sz =>
      simp only [step]
      rw [countTerminal_resize, countTerminal_log_cons]
      cases env.prepareInputs with
      | oom => rfl
      | raise m => rfl
      | ok shapes =>
        simp only [step]
        rw [countTerminal_log_cons, countTerminal_log_cons]
        cases env.generate with
        | oom => rfl
        | raise m => rfl
        | ok u =>
          simp only [step]
          rw [countTerminal_log_cons]
          cases env.batchDecode with
          | oom => rfl
          | raise m => rfl
          | ok decoded => rfl

/-- Claim C2, counterexample: on the fully successful run `workerOk` /
`okEnv`, the terminal `finished` signal is NOT the last signal emitted —
gui.py line 134 emits `log "Готово!"` after `finished.emit(result)` at
line 133 — refuting the claim that no log signal follows the terminal
signal. -/
theorem c2_counterexample_log_after_finished :
    terminalIsLast (OCRWorker.run workerOk okEnv) = false ∧
    countTerminal (OCRWorker.run workerOk okEnv) = 1 ∧
    (OCRWorker.run workerOk okEnv).getLast? = some (Emission.log "Готово!") := by
  decide

/-- Trace shape of every `OCRWorker.run` invocation, by path: on an
error path (first disjunct) the trace is a log-only prefix followed by
the terminal signal as the very last signal; on the success path (second
disjunct) the trace is a log-only prefix, the terminal signal carrying
the sanitized first decoded element, and then exactly the one
`log "Готово!"` of gui.py line 134. -/
theorem run_shape (w : OCRWorker) (env : RunEnv) :
    (runSuccess w env = false ∧ ∃ pre r, allLogs pre = true ∧
        OCRWorker.run w env = pre ++ [Emission.finished r]) ∨
    (runSuccess w env = true ∧ ∃ pre decoded, allLogs pre = true ∧
        env.batchDecode = Ext.ok decoded ∧
        OCRWorker.run w env =
          pre ++ [Emission.finished (sanitize decoded), Emission.log "Готово!"]) := by
  cases hp : w.processor with
  | none =>
    left
    refine ⟨by simp [runSuccess, hp], [Emission.log missingModelLog], missingModelResult,
      by decide, ?_⟩
    simp [OCRWorker.run, hp]
  | some p =>
    cases hm : w.model with
    | none =>
      left
      refine ⟨by simp [runSuccess, hm], [Emission.log missingModelLog], missingModelResult,
        by decide, ?_⟩
      simp [OCRWorker.run, hp, hm]
    | some m =>
      cases h1 : env.openImage with
      | oom =>
        left
        refine ⟨by simp [runSuccess, h1, Ext.isOk],
          [Emission.log "Открытие изображения...", Emission.log oomMessage], oomMessage,
          by decide, ?_⟩
        simp [OCRWorker.run, hp, hm, h1, step]
      | raise msg =>
        left
        refine ⟨by simp [runSuccess, h1, Ext.isOk],
          [Emission.log "Открытие изображения...", Emission.log (excText msg)], "",
          by simp [allLogs, Emission.isTerminal], ?_⟩
        simp [OCRWorker.run, hp, hm, h1, step]
      | ok sz =>
        cases h2 : env.prepareInputs with
        | oom =>
          left
          refine ⟨by simp [runSuccess, h2, Ext.isOk],
            Emission.log "Открытие изображения..." :: resizeEmits sz ++
              [Emission.log "Подготовка входных данных...", Emission.log oomMessage],
            oomMessage,
            by simp [allLogs, Emission.isTerminal, List.all_append]
               exact resize_no_terminal sz, ?_⟩
          simp [OCRWorker.run, hp, hm, h1, h2, step]
        | raise msg =>
          left
          refine ⟨by simp [runSuccess, h2, Ext.isOk],
            Emission.log "Открытие изображения..." :: resizeEmits sz ++
              [Emission.log "Подготовка входных данных...", Emission.log (excText msg)],
            "",
            by simp [allLogs, Emission.isTerminal, List.all_append]
               exact resize_no_terminal sz, ?_⟩
          simp [OCRWorker.run, hp, hm, h1, h2, step]
        | ok shapes =>
          cases h3 : env.generate with
          | oom =>
            left
            refine ⟨by simp [runSuccess, h3, Ext.isOk],
              Emission.log "Открытие изображения..." :: resizeEmits sz ++
                [Emission.log "Подготовка входных данных...",
                 Emission.log (inputShapesMsg shapes),
                 Emission.log "Начало генерации...", Emission.log oomMessage],
              oomMessage,
              by simp [allLogs, Emission.isTerminal, List.all_append]
                 exact resize_no_terminal sz, ?_⟩
            simp [OCRWorker.run, hp, hm, h1, h2, h3, step]
          | raise msg =>
            left
            refine ⟨by simp [runSuccess, h3, Ext.isOk],
              Emission.log "Открытие изображения..." :: resizeEmits sz ++
                [Emission.log "Подготовка входных данных...",
                 Emission.log (inputShapesMsg shapes),
                 Emission.log "Начало генерации...", Emission.log (excText msg)],
              "",
              by simp [allLogs, Emission.isTerminal, List.all_append]
                 exact resize_no_terminal sz, ?_⟩
            simp [OCRWorker.run, hp, hm, h1, h2, h3, step]
          | ok u =>
            cases h4 : env.batchDecode with
            | oom =>
              left
              refine ⟨by simp [runSuccess, h4, Ext.isOk],
                Emission.log "Открытие изображения..." :: resizeEmits sz ++
                  [Emission.log "Подготовка входных данных...",
                   Emission.log (inputShapesMsg shapes),
                   Emission.log "Начало генерации...",
                   Emission.log (genDoneMsg env.genSeconds), Emission.log oomMessage],
                oomMessage,
                by simp [allLogs, Emission.isTerminal, List.all_append]
                   exact resize_no_terminal sz, ?_⟩
              simp [OCRWorker.run, hp, hm, h1, h2, h3, h4, step]
            | raise msg =>
              left
              refine ⟨by simp [runSuccess, h4, Ext.isOk],
                Emission.log "Открытие изображения..." :: resizeEmits sz ++
                  [Emission.log "Подготовка входных данных...",
                   Emission.log (inputShapesMsg shapes),
                   Emission.log "Начало генерации...",
                   Emission.log (genDoneMsg env.genSeconds), Emission.log (excText msg)],
                "",
                by simp [allLogs, Emission.isTerminal, List.all_append]
                   exact resize_no_terminal sz, ?_⟩
              simp [OCRWorker.run, hp, hm, h1, h2, h3, h4, step]
            | ok decoded =>
              right
              refine ⟨by simp [runSuccess, hp, hm, h1, h2, h3, h4, Ext.isOk],
                Emission.log "Открытие изображения..." :: resizeEmits sz ++
                  [Emission.log "Подготовка входных данных...",
                   Emission.log (inputShapesMsg shapes),
                   Emission.log "Начало генерации...",
                   Emission.log (genDoneMsg env.genSeconds)],
                decoded,
                by simp [allLogs, Emission.isTerminal, List.all_append]
                   exact resize_no_terminal sz, rfl, ?_⟩
              simp [OCRWorker.run, hp, hm, h1, h2, h3, h4, step]

/-- Claim C2, amended: worker signals are delivered in emission order
(the trace is ordered by construction), and the terminal result signal
is the last signal on every error path — missing handles, image decode
failure, out-of-memory, any other exception; only on the success path is
it followed by a signal, namely exactly the single `log "Готово!"` of
gui.py line 134, which refutes "the terminal result is always the last
signal". -/
theorem c2_amended_terminal_last_on_error_paths (w : OCRWorker) (env : RunEnv) :
    (runSuccess w env = false → ∃ pre r, allLogs pre = true ∧
        OCRWorker.run w env = pre ++ [Emission.finished r]) ∧
    (runSuccess w env = true → ∃ pre decoded, allLogs pre = true ∧
        env.batchDecode = Ext.ok decoded ∧
        OCRWorker.run w env =
          pre ++ [Emission.finished (sanitize decoded), Emission.log "Готово!"]) := by
  rcases run_shape w env with ⟨hf, hsh⟩ | ⟨ht, hsh⟩
  · exact ⟨fun _ => hsh, fun h => by rw [hf] at h; exact Bool.noConfusion h⟩
  · exact ⟨fun h => by rw [ht] at h; exact Bool.noConfusion h, fun _ => hsh⟩

/-- Witness for the amended C2: the error shape at the concrete
no-handle worker and the success shape at the concrete successful
run. -/
theorem c2_amended_terminal_last_on_error_paths_witness :
    (∃ pre r, allLogs pre = true ∧
        OCRWorker.run workerNoModel okEnv = pre ++ [Emission.finished r]) ∧
    (∃ pre decoded, allLogs pre = true ∧
        okEnv.batchDecode = Ext.ok decoded ∧
        OCRWorker.run workerOk okEnv =
          pre ++ [Emission.finished (sanitize decoded), Emission.log "Готово!"]) :=
  ⟨(c2_amended_terminal_last_on_error_paths workerNoModel okEnv).1 (by decide),
   (c2_amended_terminal_last_on_error_paths workerOk okEnv).2 (by decide)⟩

/-- Claim C3, counterexample: in state `stReady` (image and model
selected, model loaded, previous thread running, old text on display,
whitespace-only prompt) the empty-prompt precondition failure does show a
warning and creates no worker, but it is NOT free of side effects: the
result display is cleared (was "старый результат") and the previous
worker thread is stopped (`quit`/`wait` actions), because gui.py checks
the prompt only at line 404, after lines 395-402. -/
theorem c3_counterexample_empty_prompt_side_effects :
    (MainWindow.start_ocr stReady envNoLoad).worker = none ∧
    (MainWindow.start_ocr stReady envNoLoad).state.popups = ["Пожалуйста, введите промт."] ∧
    stReady.textOutput = "старый результат" ∧
    (MainWindow.start_ocr stReady envNoLoad).state.textOutput = "" ∧
    (MainWindow.start_ocr stReady envNoLoad).actions =
      [SupAction.clearOutput, SupAction.quitThread, SupAction.waitThread] := by
  decide

/-- Claim C3, amended: for a missing image or missing model path,
`start_ocr` only shows the warning and has no other effect (no worker, no
actions, state otherwise untouched); the empty-prompt check, however,
runs only after the lazy model load, the clearing of the result display
and the stopping of a previous thread, so on an empty prompt a warning is
shown and no worker is created, but the result display has been cleared
(and the other earlier side effects keep). -/
theorem c3_amended_precondition_paths (st : MainWindowState) (env : StartEnv) :
    (st.image_path = none →
      MainWindow.start_ocr st env =
        ⟨popup st "Пожалуйста, выберите изображение.", none, []⟩) ∧
    (∀ ip, st.image_path = some ip → st.current_model_path = none →
      MainWindow.start_ocr st env = ⟨popup st "Модель не выбрана.", none, []⟩) ∧
    (∀ ip mp p m, st.image_path = some ip → st.current_model_path = some mp →
      st.processor = some p → st.model = some m →
      pyStrip st.promptInput = "" →
      (MainWindow.start_ocr st env).worker = none ∧
      (MainWindow.start_ocr st env).state.popups
          = st.popups ++ ["Пожалуйста, введите промт."] ∧
      (MainWindow.start_ocr st env).state.textOutput = "") := by
  refine ⟨?_, ?_, ?_⟩
  · intro h
    simp [MainWindow.start_ocr, h]
  · intro ip hip hmp
    simp [MainWindow.start_ocr, hip, hmp]
  · intro ip mp p m hip hmp hp hm hstrip
    simp only [MainWindow.start_ocr, hip, hmp, hp, hm, Option.isNone_some, Bool.or_self,
      Bool.false_eq_true, if_false]
    simp only [startOcrTail, hstrip]
    split_ifs <;> simp [popup]

/-- Witness for the amended C3: the three precondition paths at concrete
states. -/
theorem c3_amended_precondition_paths_witness :
    MainWindow.start_ocr stNoImage envNoLoad =
      ⟨popup stNoImage "Пожалуйста, выберите изображение.", none, []⟩ ∧
    MainWindow.start_ocr stNoModelPath envNoLoad =
      ⟨popup stNoModelPath "Модель не выбрана.", none, []⟩ ∧
    ((MainWindow.start_ocr stReady envNoLoad).worker = none ∧
     (MainWindow.start_ocr stReady envNoLoad).state.popups
        = stReady.popups ++ ["Пожалуйста, введите промт."] ∧
     (MainWindow.start_ocr stReady envNoLoad).state.textOutput = "") :=
  ⟨(c3_amended_precondition_paths stNoImage envNoLoad).1 rfl,
   (c3_amended_precondition_paths stNoModelPath envNoLoad).2.1 "/imgs/page.png" rfl rfl,
   (c3_amended_precondition_paths stReady envNoLoad).2.2 "/imgs/page.png" "/models/A"
     procA modelA rfl rfl rfl rfl (by decide)⟩

/-- Claim C4, counterexample: with the processor/model absent the worker
does emit the diagnostic log line and a single terminal signal, but its
payload is the fixed message "Ошибка: внутренняя ошибка приложения."
(gui.py line 42), not the empty string the claim asserts. -/
theorem c4_counterexample_terminal_payload_not_empty :
    OCRWorker.run workerNoModel okEnv =
      [Emission.log missingModelLog, Emission.finished missingModelResult] ∧
    missingModelResult ≠ "" := by
  decide

/-- Claim C4, amended: whenever the processor or the model is absent,
`OCRWorker.run` emits exactly the diagnostic log line followed by one
terminal signal carrying the fixed non-empty internal-error message (not
an empty string). -/
theorem c4_amended_missing_model_emissions (w : OCRWorker) (env : RunEnv)
    (h : w.processor = none ∨ w.model = none) :
    OCRWorker.run w env =
      [Emission.log missingModelLog, Emission.finished missingModelResult] := by
  unfold OCRWorker.run
  have hb : (w.processor.isNone || w.model.isNone) = true := by
    rcases h with h | h <;> simp [h]
  simp [hb]

/-- Witness for the amended C4 at the concrete worker with no injected
handles. -/
theorem c4_amended_missing_model_emissions_witness :
    OCRWorker.run workerNoModel okEnv =
      [Emission.log missingModelLog, Emission.finished missingModelResult] :=
  c4_amended_missing_model_emissions workerNoModel okEnv (Or.inl rfl)

/-- Claim C5, counterexample: for a 2048×1021 image the code computes the
new height `int(1021 * 1536/2048) = int(765.75) = 765` (truncation,
gui.py line 52), while the claim's `round(dim * ratio)` gives 766; the
claim as stated is false. -/
theorem c5_counterexample_truncation_not_rounding :
    prepare ⟨2048, 1021⟩ ≠ prepareSpecRound ⟨2048, 1021⟩ ∧
    (prepare ⟨2048, 1021⟩).height = 765 ∧
    (prepareSpecRound ⟨2048, 1021⟩).height = 766 := by
  have hval : prepareSpecRound ⟨2048, 1021⟩ =
      ⟨1536, 766, true, some Resampling.lanczos⟩ := by
    unfold prepareSpecRound
    norm_num
    refine ⟨by rfl, ?_⟩
    norm_num [round_eq]
    rfl
  refine ⟨?_, by decide, by rw [hval]⟩
  rw [hval]
  decide

/-- Claim C5, amended: the preparation step converts to RGB and, exactly
when `max(width, height) > 1536`, downscales with the anti-aliased
LANCZOS filter to `⌊dim * ratio⌋` per axis (truncation, not rounding)
with `ratio = 1536 / max(width, height)`; smaller images keep both
dimensions. -/
theorem c5_amended_floor_scaling (img : RawImage) :
    prepare img = prepareSpecFloor img := by
  by_cases h : max img.width img.height > 1536
  · have key : ∀ a : ℕ, a * 1536 / max img.width img.height =
        ⌊(a : ℚ) * (1536 / ((max img.width img.height : ℕ) : ℚ))⌋₊ := by
      intro a
      have hcast : (a : ℚ) * (1536 / ((max img.width img.height : ℕ) : ℚ)) =
          ((a * 1536 : ℕ) : ℚ) / ((max img.width img.height : ℕ) : ℚ) := by
        push_cast
        ring
      rw [hcast, Nat.floor_div_eq_div]
    simp only [prepare, prepareSpecFloor, resizeDims, if_pos h, PreparedImage.mk.injEq]
    exact ⟨key img.width, key img.height, trivial, trivial⟩
  · simp only [prepare, prepareSpecFloor, if_neg h]

/-- Claim C6, counterexample: on the decoded text
"```markdown```markdown hello" the sanitizer strips the leading marker
only once, returning "```markdown hello" — a non-sentinel output that
still begins with the markdown fence marker, refuting the claim that
every non-sentinel output is markdown-fence-free. -/
theorem c6_counterexample_double_fence_not_fence_free :
    sanitize ["```markdown```markdown hello"] = "```markdown hello" ∧
    sanitize ["```markdown```markdown hello"] ≠ sentinel ∧
    pyStartsWith (sanitize ["```markdown```markdown hello"]) fenceOpen = true := by
  decide

/-- Claim C6, amended: the sanitizer returns the trimmed, once-per-side
fence-stripped text itself whenever that text has length ≥ 5 (it is then
non-empty, but may still carry a fence marker when one was doubled), and
returns the fixed sentinel exactly when the length after fence-stripping
and trimming is below 5. -/
theorem c6_amended_sentinel_or_long_text (decoded : List String) :
    (pyLen (stripFences (firstDecoded decoded)) < 5 ∧
        sanitize decoded = sentinel) ∨
    (5 ≤ pyLen (stripFences (firstDecoded decoded)) ∧
        sanitize decoded = stripFences (firstDecoded decoded) ∧
        sanitize decoded ≠ "") := by
  unfold sanitize
  by_cases h : pyLen (stripFences (firstDecoded decoded)) < 5
  · left
    simp [h]
  · right
    have hne : stripFences (firstDecoded decoded) ≠ "" := by
      intro he
      rw [he] at h
      exact h (by decide)
    refine ⟨by omega, by simp [h], by simp [h, hne]⟩

/-- Claim C7: fence-stripping removes only a literal leading
"```markdown" and a literal trailing "```" (each side trimmed after
removal): when neither marker is at the edge the text — interior
occurrences of "```markdown" included — is returned unchanged, and the
end-to-end example " ```markdown\nHello\n``` " sanitizes to exactly
"Hello". -/
theorem c7_fence_stripping_only_edge_markers :
    (∀ s : String, pyStartsWith s fenceOpen = false →
      pyEndsWith s fenceClose = false → stripFences s = s) ∧
    sanitize [" ```markdown\nHello\n``` "] = "Hello" := by
  constructor
  · intro s h1 h2
    simp [stripFences, h1, h2]
  · decide

/-- Witness for C7: a string with an interior "```markdown" is returned
unchanged, and the concrete scenario yields "Hello". -/
theorem c7_fence_stripping_only_edge_markers_witness :
    stripFences "interior ```markdown stays" = "interior ```markdown stays" ∧
    sanitize [" ```markdown\nHello\n``` "] = "Hello" :=
  ⟨c7_fence_stripping_only_edge_markers.1 "interior ```markdown stays"
      (by decide) (by decide),
   c7_fence_stripping_only_edge_markers.2⟩

/-- Claim C8: once a handle pair is loaded, a dispatch after changing the
selected model path reuses the previously loaded processor/model — the
dispatched worker carries exactly the old handles and `load_model` is not
called, even though the current model path now differs. -/
theorem c8_loaded_handle_reused_after_selection_change (st : MainWindowState)
    (env : StartEnv) (now newPath : String)
    (p : ProcessorHandle) (m : ModelHandle) (w : OCRWorker)
    (hp : st.processor = some p) (hm : st.model = some m)
    (hw : (MainWindow.start_ocr (MainWindow.on_model_changed st now (some newPath)) env).worker
        = some w) :
    (MainWindow.on_model_changed st now (some newPath)).current_model_path = some newPath ∧
    w.processor = some p ∧ w.model = some m ∧
    callsLoad
      (MainWindow.start_ocr (MainWindow.on_model_changed st now (some newPath)) env).actions
      = false :=
  ⟨rfl,
   start_worker_uses_handles (MainWindow.on_model_changed st now (some newPath))
     env p m w hp hm hw⟩

/-- Witness for C8: from the loaded state `stDispatch`, selecting
"/models/B" and dispatching still hands the worker the handles loaded
from "/models/A". -/
theorem c8_loaded_handle_reused_witness :
    (MainWindow.on_model_changed stDispatch "10:00:01" (some "/models/B")).current_model_path
        = some "/models/B" ∧
    workerOk.processor = some procA ∧ workerOk.model = some modelA ∧
    callsLoad
      (MainWindow.start_ocr
        (MainWindow.on_model_changed stDispatch "10:00:01" (some "/models/B"))
        envNoLoad).actions = false :=
  c8_loaded_handle_reused_after_selection_change stDispatch envNoLoad "10:00:01"
    "/models/B" procA modelA workerOk rfl rfl (by decide)

/-- Claim C9: `start_ocr` never lets two worker threads run
concurrently — in every action trace it produces, a new thread is started
only when no previous execution context is live, a previously running
context having been stopped (`quit`) and fully waited on (`wait`)
first. -/
theorem c9_no_concurrent_workers (st : MainWindowState) (env : StartEnv) :
    quiesceOk st.threadRunning (MainWindow.start_ocr st env).actions = true := by
  unfold MainWindow.start_ocr
  cases himg : st.image_path with
  | none => rfl
  | some ip =>
    cases hmp : st.current_model_path with
    | none => rfl
    | some mp =>
      by_cases hload : (st.processor.isNone || st.model.isNone) = true
      · simp only [hload, if_true]
        cases hres : env.loadResult with
        | none => rfl
        | some pm =>
          have h2 := (quiesce_tail
            { MainWindow.logAll (MainWindow.log st env.now "🔄 Загрузка модели...")
                env.now env.loadLogs with
              processor := some pm.1, model := some pm.2 } env ip mp).2
          simpa [logAll_threadRunning] using h2
      · simp only [Bool.not_eq_true] at hload
        simp only [hload, Bool.false_eq_true, if_false]
        exact (quiesce_tail st env ip mp).1

/-- Claim C10: `display_result` appends EVERY terminal payload — the
empty string of an unclassified failure and the out-of-memory message
included, since the equation holds for all payload strings — to the
recognized-text log as a timestamped entry followed by the 50-dash
separator line; the text log always grows, so it is not restricted to
successful recognitions. -/
theorem c10_every_payload_logged (st : MainWindowState) (now payload : String) :
    (MainWindow.display_result st now payload).textLogEntries
        = st.textLogEntries ++ [textLogEntry now payload] ∧
    (MainWindow.display_result st now payload).textLogEntries ≠ st.textLogEntries := by
  refine ⟨rfl, ?_⟩
  intro h
  have hlen := congrArg List.length h
  simp [MainWindow.display_result] at hlen

end NuMarkdownOCR
